import Mathlib

/-!
Verification of the notification dispatch core: data model, record store,
delivery providers, and the orchestrating service (queueing, batch
processing, retry, history queries, retention purge), shallowly embedded
from the JavaScript sources. Timestamps are modelled as natural numbers
(an abstract clock passed explicitly where the code reads the wall clock),
database rows and in-memory notification objects share one record type,
and asynchronous provider calls are modelled by an explicit outcome value
(a returned result, or an exception escaping the provider).
-/

set_option linter.unusedVariables false

/-- Lifecycle status of a notification (the `status` column). -/
inductive Status where
  | pending
  | processing
  | sent
  | failed
  deriving DecidableEq, Repr

/-- The result object a provider `send` resolves with. Only the fields the
core reads are modelled; provider-specific extras (SMS `deliveryInfo`,
webhook `statusCode`/`statusText`, email `response`) are opaque payload the
service never inspects and are elided. -/
structure DeliveryResult where
  success : Bool
  messageId : Option String
  error : Option String
  provider : String
  timestamp : Option Nat
  deriving DecidableEq, Repr

/-- A notification record: both the persisted row of the `notifications`
table and the in-memory notification object share this shape (`metadata`
is kept opaque, as the JSON-stringified column). `ntype` is the channel
selector called `type` in the source. -/
structure Record where
  id : Nat
  recipient : String
  message : String
  ntype : String
  priority : String
  metadata : String
  status : Status
  retryCount : Nat
  providerResponse : Option DeliveryResult
  error : Option String
  createdAt : Nat
  updatedAt : Nat
  sentAt : Option Nat
  failedAt : Option Nat
  deriving DecidableEq, Repr

/-- The set of columns one `updateNotification` call assigns: a field that
is `some v` is written with value `v`, a field that is `none` is not named
in the UPDATE statement and keeps its stored value (merge-patch). -/
structure Patch where
  status : Option Status
  providerResponse : Option DeliveryResult
  error : Option String
  retryCount : Option Nat
  sentAt : Option Nat
  failedAt : Option Nat
  deriving DecidableEq, Repr

/-- Apply a merge-patch to a row; `updatedAt` is always rewritten, exactly
as `DatabaseService.updateNotification` appends `updatedAt = ?`. -/
def applyPatch (now : Nat) (p : Patch) (r : Record) : Record :=
  { r with
    status := p.status.getD r.status
    providerResponse := match p.providerResponse with
      | some v => some v
      | none => r.providerResponse
    error := match p.error with
      | some v => some v
      | none => r.error
    retryCount := p.retryCount.getD r.retryCount
    sentAt := match p.sentAt with
      | some v => some v
      | none => r.sentAt
    failedAt := match p.failedAt with
      | some v => some v
      | none => r.failedAt
    updatedAt := now }

/-- The patch `{ status: 'processing' }`. -/
def processingPatch : Patch := ⟨some Status.processing, none, none, none, none, none⟩

/-- The patch `{ status: finalStatus, providerResponse: result, sentAt }`
written after a provider call that returned a result. -/
def outcomePatch (st : Status) (res : DeliveryResult) (now : Nat) : Patch :=
  ⟨some st, some res, none, none, some now, none⟩

/-- The patch `{ status: 'failed', error, failedAt }` written by the catch
branch of `processNotification`. -/
def failurePatch (msg : String) (now : Nat) : Patch :=
  ⟨some Status.failed, none, some msg, none, none, some now⟩

/-- The patch `{ status: 'pending', retryCount }` written by
`retryFailedNotification`. -/
def retryPatch (rc : Nat) : Patch :=
  ⟨some Status.pending, none, none, some rc, none, none⟩

/-- The row INSERTed by `saveNotification`: the submitted object's fields,
with the columns the INSERT does not name at their schema defaults
(`retryCount` 0, outcome fields NULL) and `updatedAt` set to now.
`createdAt` is the submission timestamp already carried by the object. -/
def toRow (now : Nat) (n : Record) : Record :=
  { n with
    retryCount := 0
    providerResponse := none
    error := none
    updatedAt := now
    sentAt := none
    failedAt := none }

/-- `DatabaseService.saveNotification`: INSERT, rejecting on a duplicate
primary key. -/
def saveNotification (now : Nat) (n : Record) (store : List Record) :
    Except String (List Record) :=
  if store.any (fun r => r.id == n.id) then
    Except.error "UNIQUE constraint failed: notifications.id"
  else
    Except.ok (store ++ [toRow now n])

/-- `DatabaseService.updateNotification`: UPDATE ... WHERE id = ?, applying
the merge-patch to every row with the given id (ids are unique in any store
reachable through `saveNotification`). -/
def updateNotification (id : Nat) (p : Patch) (now : Nat) (store : List Record) :
    List Record :=
  store.map (fun r => if r.id == id then applyPatch now p r else r)

/-- `DatabaseService.getNotification`: SELECT * WHERE id = ?. -/
def getNotification (id : Nat) (store : List Record) : Option Record :=
  store.find? (fun r => r.id == id)

/-- Whether `pat` occurs at the start of `hay` (character lists). -/
def chPrefix : List Char → List Char → Bool
  | [], _ => true
  | _ :: _, [] => false
  | a :: as, b :: bs => a == b && chPrefix as bs

/-- Whether `pat` occurs anywhere inside `hay`: the semantics of the SQL
pattern `LIKE concat of percent, pat, percent`. -/
def chSub : List Char → List Char → Bool
  | pat, [] => pat.isEmpty
  | pat, c :: rest' => chPrefix pat (c :: rest') || chSub pat rest'

/-- Filter options of `getNotifications` (absent = clause not added). -/
structure ListOptions where
  limit : Nat
  offset : Nat
  ntype : Option String
  status : Option Status
  recipient : Option String
  startDate : Option Nat
  endDate : Option Nat
  deriving Repr

/-- The WHERE clause built by `getNotifications`. -/
def matchesFilter (o : ListOptions) (r : Record) : Bool :=
  (match o.ntype with
    | none => true
    | some t => r.ntype == t) &&
  (match o.status with
    | none => true
    | some st => decide (r.status = st)) &&
  (match o.recipient with
    | none => true
    | some q => chSub q.data r.recipient.data) &&
  (match o.startDate with
    | none => true
    | some d => decide (d ≤ r.createdAt)) &&
  (match o.endDate with
    | none => true
    | some d => decide (r.createdAt ≤ d))

/-- Insert a row into a list kept in descending `createdAt` order. -/
def insertByCreatedAtDesc (r : Record) : List Record → List Record
  | [] => [r]
  | x :: xs =>
      if r.createdAt ≤ x.createdAt then x :: insertByCreatedAtDesc r xs
      else r :: x :: xs

/-- ORDER BY createdAt DESC. -/
def orderByCreatedAtDesc : List Record → List Record
  | [] => []
  | x :: xs => insertByCreatedAtDesc x (orderByCreatedAtDesc xs)

/-- The object `getNotifications` resolves with. -/
structure QueryResult where
  notifications : List Record
  total : Nat
  limit : Nat
  offset : Nat
  deriving Repr

/-- `DatabaseService.getNotifications`: filter, ORDER BY createdAt DESC,
then OFFSET/LIMIT; `total` is computed as the length of the returned rows,
after the window is applied. -/
def getNotifications (o : ListOptions) (store : List Record) : QueryResult :=
  let filtered := store.filter (matchesFilter o)
  let sorted := orderByCreatedAtDesc filtered
  let page := (sorted.drop o.offset).take o.limit
  ⟨page, page.length, o.limit, o.offset⟩

/-- `DatabaseService.deleteOldNotifications`: DELETE WHERE createdAt is
before the cutoff now − daysToKeep days; returns the surviving store and
the number of rows removed (`this.changes`). One day is 86400 seconds of
the abstract clock. -/
def deleteOldNotifications (now daysToKeep : Nat) (store : List Record) :
    List Record × Nat :=
  let cutoff := now - daysToKeep * 86400
  (store.filter (fun r => !(decide (r.createdAt < cutoff))),
   (store.filter (fun r => decide (r.createdAt < cutoff))).length)

/-- Information the email transport (`transporter.sendMail`) resolves with
on success. -/
structure EmailInfo where
  messageId : String
  response : String
  deriving DecidableEq, Repr

/-- The try-block of `EmailProvider.send`: awaiting the transport either
yields message info or raises. Subject/body generation cannot raise. -/
def emailSendBody (now : Nat) (n : Record) (transport : Except String EmailInfo) :
    Except String DeliveryResult :=
  match transport with
  | Except.error e => Except.error e
  | Except.ok info =>
      Except.ok ⟨true, some info.messageId, none, "email", some now⟩

/-- `EmailProvider.send`: the try-block with its catch, which converts any
raised error into a result object with success=false and the error text. -/
def EmailProvider.send (now : Nat) (n : Record) (transport : Except String EmailInfo) :
    DeliveryResult :=
  match emailSendBody now n transport with
  | Except.ok r => r
  | Except.error e => ⟨false, none, some e, "email", some now⟩

/-- The regex the SMS provider checks recipients against: a plus sign, a
nonzero digit, then one to fourteen further digits. -/
def isValidPhoneNumber (s : String) : Bool :=
  match s.data with
  | '+' :: c :: rest =>
      c.isDigit && c != '0' && rest.all Char.isDigit
        && decide (1 ≤ rest.length) && decide (rest.length ≤ 14)
  | _ => false

/-- Information the SMS client (`client.messages.create`) resolves with. -/
structure SmsInfo where
  sid : String
  status : String
  deriving DecidableEq, Repr

/-- The try-block of `SMSProvider.send`: validate the phone number (an
invalid one raises), then await the client call. -/
def smsSendBody (now : Nat) (n : Record) (transport : Except String SmsInfo) :
    Except String DeliveryResult :=
  if !(isValidPhoneNumber n.recipient) then
    Except.error "Invalid phone number format"
  else
    match transport with
    | Except.error e => Except.error e
    | Except.ok info =>
        Except.ok ⟨true, some info.sid, none, "sms", some now⟩

/-- `SMSProvider.send`: try-block plus catch converting every raised error
into a success=false result. -/
def SMSProvider.send (now : Nat) (n : Record) (transport : Except String SmsInfo) :
    DeliveryResult :=
  match smsSendBody now n transport with
  | Except.ok r => r
  | Except.error e => ⟨false, none, some e, "sms", some now⟩

/-- Information the push transport (`messaging().send`) resolves with. -/
structure PushInfo where
  messageId : String
  deriving DecidableEq, Repr

/-- The try-block of `PushProvider.send`. The success result carries no
timestamp in the source. -/
def pushSendBody (n : Record) (transport : Except String PushInfo) :
    Except String DeliveryResult :=
  match transport with
  | Except.error e => Except.error e
  | Except.ok info =>
      Except.ok ⟨true, some info.messageId, none, "push", none⟩

/-- `PushProvider.send`: try-block plus catch; the failure result carries
no timestamp in the source. -/
def PushProvider.send (n : Record) (transport : Except String PushInfo) :
    DeliveryResult :=
  match pushSendBody n transport with
  | Except.ok r => r
  | Except.error e => ⟨false, none, some e, "push", none⟩

/-- Information the webhook POST resolves with on success. -/
structure WebhookInfo where
  statusCode : Nat
  statusText : String
  deriving DecidableEq, Repr

/-- The try-block of `WebhookProvider.send`: await the POST. -/
def webhookSendBody (now : Nat) (n : Record) (transport : Except String WebhookInfo) :
    Except String DeliveryResult :=
  match transport with
  | Except.error e => Except.error e
  | Except.ok resp =>
      Except.ok ⟨true, none, none, "webhook", some now⟩

/-- `WebhookProvider.send`: try-block plus catch; the failure result
carries no timestamp in the source. -/
def WebhookProvider.send (now : Nat) (n : Record) (transport : Except String WebhookInfo) :
    DeliveryResult :=
  match webhookSendBody now n transport with
  | Except.ok r => r
  | Except.error e => ⟨false, none, some e, "webhook", none⟩

/-- What a provider `send` call does when the Processor awaits it: either
resolve with a result object, or let an exception escape (the contract
violation case the Processor's catch still has to absorb). -/
inductive SendOutcome where
  | ok : DeliveryResult → SendOutcome
  | threw : String → SendOutcome
  deriving DecidableEq, Repr

/-- A provider as the service sees it: the bound `send` capability. -/
def ProviderFun : Type := Record → SendOutcome

/-- The channel feature flags read from configuration. -/
structure ProviderConfig where
  ENABLE_EMAIL : Bool
  ENABLE_SMS : Bool
  ENABLE_PUSH : Bool
  ENABLE_WEBHOOK : Bool
  deriving DecidableEq, Repr

/-- The provider registry built by the service constructor: a key is bound
only when its channel is enabled; every other type string is unbound. -/
def mkProviders (cfg : ProviderConfig) (email sms push webhook : ProviderFun) :
    String → Option ProviderFun := fun ty =>
  if ty == "email" then (if cfg.ENABLE_EMAIL then some email else none)
  else if ty == "sms" then (if cfg.ENABLE_SMS then some sms else none)
  else if ty == "push" then (if cfg.ENABLE_PUSH then some push else none)
  else if ty == "webhook" then (if cfg.ENABLE_WEBHOOK then some webhook else none)
  else none

/-- The mutable state of `NotificationService`: the database, the
in-memory pending queue, and the batch-in-flight flag. -/
structure ServiceState where
  store : List Record
  queue : List Record
  processing : Bool
  deriving Repr

/-- The object `sendNotification` resolves with. -/
structure SendReceipt where
  status : String
  id : Nat
  timestamp : Nat
  deriving DecidableEq, Repr

/-- `NotificationService.sendNotification`: persist, then push onto the
in-memory queue; a persistence error is re-thrown and nothing is queued. -/
def NotificationService.sendNotification (now : Nat) (n : Record) (s : ServiceState) :
    ServiceState × Except String SendReceipt :=
  match saveNotification now n s.store with
  | Except.error e => (s, Except.error e)
  | Except.ok store2 =>
      ({ s with store := store2, queue := s.queue ++ [n] },
       Except.ok ⟨"queued", n.id, now⟩)

/-- One entry of a bulk-submission request; `id` is optional (a fresh one
is generated when absent). -/
structure Request where
  id : Option Nat
  recipient : String
  message : String
  ntype : String
  priority : String
  metadata : String
  deriving DecidableEq, Repr

/-- The notification object built for one bulk item: the request's fields
plus the chosen id, the submission timestamp, and status pending. -/
def mkNotification (id now : Nat) (req : Request) : Record :=
  ⟨id, req.recipient, req.message, req.ntype, req.priority, req.metadata,
   Status.pending, 0, none, none, now, now, none, none⟩

/-- One entry of the bulk-submission response; `id` is `none` where the
source reports the string unknown (item had no id and failed). -/
structure BulkEntry where
  id : Option Nat
  status : String
  error : Option String
  deriving DecidableEq, Repr

/-- `NotificationService.sendBulkNotifications`: submit each request in
order, catching a per-item failure as a per-item error entry. Fresh ids
are drawn from the counter `nextId` (modelling the random uuid). -/
def NotificationService.sendBulkNotifications (now : Nat) (reqs : List Request)
    (nextId : Nat) (s : ServiceState) : List BulkEntry × ServiceState :=
  match reqs with
  | [] => ([], s)
  | req :: rest =>
      let idAndNext : Nat × Nat :=
        match req.id with
        | some i => (i, nextId)
        | none => (nextId, nextId + 1)
      let n := mkNotification idAndNext.1 now req
      match NotificationService.sendNotification now n s with
      | (s2, Except.ok _) =>
          let tail := NotificationService.sendBulkNotifications now rest idAndNext.2 s2
          (⟨some n.id, "queued", none⟩ :: tail.1, tail.2)
      | (s2, Except.error e) =>
          let tail := NotificationService.sendBulkNotifications now rest idAndNext.2 s2
          (⟨req.id, "error", some e⟩ :: tail.1, tail.2)

/-- The message of the missing-provider exception. -/
def noProviderMsg (ty : String) : String :=
  "No provider found for notification type: " ++ ty

/-- `NotificationService.processNotification`: mark processing, look up the
provider by type (an unbound type raises), await its `send`, and write the
outcome back: on a returned result, status sent-or-failed by its `success`
flag together with `providerResponse` and `sentAt`; on a raised error, the
catch writes status failed with `error` and `failedAt` and re-throws. -/
def NotificationService.processNotification (now : Nat)
    (providers : String → Option ProviderFun) (n : Record) (store : List Record) :
    List Record × Except String DeliveryResult :=
  let store1 := updateNotification n.id processingPatch now store
  match providers n.ntype with
  | none =>
      (updateNotification n.id (failurePatch (noProviderMsg n.ntype) now) now store1,
       Except.error (noProviderMsg n.ntype))
  | some p =>
      match p n with
      | SendOutcome.threw e =>
          (updateNotification n.id (failurePatch e now) now store1, Except.error e)
      | SendOutcome.ok result =>
          let finalStatus := if result.success then Status.sent else Status.failed
          (updateNotification n.id (outcomePatch finalStatus result now) now store1,
           Except.ok result)

/-- The batch fan-out of one tick: each member is processed and its
re-thrown error is absorbed by the per-member catch; only the store
effects remain. -/
def NotificationService.processBatch (now : Nat)
    (providers : String → Option ProviderFun) :
    List Record → List Record → List Record
  | [], store => store
  | n :: rest, store =>
      NotificationService.processBatch now providers rest
        (NotificationService.processNotification now providers n store).1

/-- One tick of `startQueueProcessor`: skip when a batch is in flight or
the queue is empty; otherwise splice up to `batchSize` entries off the head
of the queue, process them, and finish with the in-flight flag cleared.
Also returns the spliced batch for observation. -/
def NotificationService.tick (now batchSize : Nat)
    (providers : String → Option ProviderFun) (s : ServiceState) :
    ServiceState × List Record :=
  if s.processing || s.queue.isEmpty then (s, [])
  else
    let batch := s.queue.take batchSize
    ({ store := NotificationService.processBatch now providers batch s.store,
       queue := s.queue.drop batchSize,
       processing := false },
     batch)

/-- The object `retryFailedNotification` resolves with. -/
structure RetryReceipt where
  success : Bool
  message : String
  retryCount : Nat
  deriving DecidableEq, Repr

/-- `NotificationService.retryFailedNotification`: absent id raises
not-found, a non-failed status raises the invalid-state error; otherwise
the store gets the patch `{ status: 'pending', retryCount + 1 }` and the
fetched object, with its `error`/`failedAt` deleted, is pushed onto the
tail of the queue. -/
def NotificationService.retryFailedNotification (now id : Nat) (s : ServiceState) :
    ServiceState × Except String RetryReceipt :=
  match getNotification id s.store with
  | none => (s, Except.error "Notification not found")
  | some n =>
      if n.status ≠ Status.failed then
        (s, Except.error "Only failed notifications can be retried")
      else
        let rc := n.retryCount + 1
        let n2 := { n with
          status := Status.pending, retryCount := rc, error := none, failedAt := none }
        ({ s with
            store := updateNotification id (retryPatch rc) now s.store,
            queue := s.queue ++ [n2] },
         Except.ok ⟨true, "Notification queued for retry", rc⟩)

/-- `NotificationService.getNotificationHistory`: read-through to the
store's list query. -/
def NotificationService.getNotificationHistory (o : ListOptions) (s : ServiceState) :
    QueryResult :=
  getNotifications o s.store

theorem applyPatch_id (now : Nat) (p : Patch) (r : Record) :
    (applyPatch now p r).id = r.id := rfl

theorem getNotification_updateNotification (id : Nat) (p : Patch) (now : Nat)
    (store : List Record) :
    getNotification id (updateNotification id p now store) =
      (getNotification id store).map (applyPatch now p) := by
  induction store with
  | nil => rfl
  | cons r rest ih =>
      by_cases h : r.id = id
      · have hb : (r.id == id) = true := beq_iff_eq.mpr h
        have hb2 : ((applyPatch now p r).id == id) = true := hb
        simp only [getNotification, updateNotification, List.map_cons, hb, if_true,
          List.find?_cons, hb2, Option.map_some']
      · have hb : (r.id == id) = false := by
          cases hx : (r.id == id) with
          | false => rfl
          | true => exact absurd (beq_iff_eq.mp hx) h
        have hnp : ¬ ((r.id == id) = true) := by simp [hb]
        simp only [getNotification, updateNotification, List.map_cons,
          List.find?_cons] at ih ⊢
        rw [if_neg hnp, hb]
        exact ih

theorem getNotification_append_self (store : List Record) (x : Record)
    (h : store.any (fun r => r.id == x.id) = false) :
    getNotification x.id (store ++ [x]) = some x := by
  induction store with
  | nil =>
      have hb : (x.id == x.id) = true := beq_iff_eq.mpr rfl
      simp [getNotification, List.find?_cons, hb]
  | cons r rest ih =>
      have h1 : (r.id == x.id) = false := by
        cases hx : (r.id == x.id) with
        | false => rfl
        | true => simp [List.any_cons, hx] at h
      have h2 : rest.any (fun r => r.id == x.id) = false := by
        cases hx : rest.any (fun r => r.id == x.id) with
        | false => rfl
        | true => simp [List.any_cons, hx] at h
      simp only [getNotification, List.cons_append, List.find?_cons, h1]
      exact ih h2

theorem applyPatch_outcome_processing (now : Nat) (st : Status)
    (res : DeliveryResult) (x : Record) :
    applyPatch now (outcomePatch st res now) (applyPatch now processingPatch x) =
      { x with
        status := st, providerResponse := some res,
        sentAt := some now, updatedAt := now } := rfl

theorem applyPatch_failure_processing (now : Nat) (msg : String) (x : Record) :
    applyPatch now (failurePatch msg now) (applyPatch now processingPatch x) =
      { x with
        status := Status.failed, error := some msg,
        failedAt := some now, updatedAt := now } := rfl

theorem applyPatch_retry (now rc : Nat) (x : Record) :
    applyPatch now (retryPatch rc) x =
      { x with status := Status.pending, retryCount := rc, updatedAt := now } := rfl

/-- C4: a retry call on an absent id fails with the not-found error, and a
retry call on a record whose current status is not failed (pending,
processing or sent) fails with the invalid-state error; in both failure
cases the service state is returned unchanged — the store is not mutated
and nothing is enqueued. -/
theorem retryFailedNotification_rejects_without_mutation (now id : Nat)
    (s : ServiceState)
    (h : ∀ n, getNotification id s.store = some n → n.status ≠ Status.failed) :
    (NotificationService.retryFailedNotification now id s).1 = s ∧
    (getNotification id s.store = none →
      (NotificationService.retryFailedNotification now id s).2 =
        Except.error "Notification not found") ∧
    (∀ n, getNotification id s.store = some n →
      (NotificationService.retryFailedNotification now id s).2 =
        Except.error "Only failed notifications can be retried") := by
  cases hg : getNotification id s.store with
  | none =>
      refine ⟨?_, fun _ => ?_, fun m hm => ?_⟩
      · simp [NotificationService.retryFailedNotification, hg]
      · simp [NotificationService.retryFailedNotification, hg]
      · exact Option.noConfusion hm
  | some n =>
      have hne := h n hg
      refine ⟨?_, fun hnone => ?_, fun m hm => ?_⟩
      · simp [NotificationService.retryFailedNotification, hg, hne]
      · exact Option.noConfusion hnone
      · simp [NotificationService.retryFailedNotification, hg, hne]

/-- Witness for C4: retrying a concrete pending record is rejected with the
invalid-state error and leaves the state unchanged. -/
theorem retryFailedNotification_rejects_without_mutation_witness :
    (NotificationService.retryFailedNotification 9 1
        ⟨[⟨1, "a@b.com", "hi", "email", "normal", "", Status.pending, 0, none,
           none, 0, 0, none, none⟩], [], false⟩).1 =
      ⟨[⟨1, "a@b.com", "hi", "email", "normal", "", Status.pending, 0, none,
         none, 0, 0, none, none⟩], [], false⟩ ∧
    (NotificationService.retryFailedNotification 9 1
        ⟨[⟨1, "a@b.com", "hi", "email", "normal", "", Status.pending, 0, none,
           none, 0, 0, none, none⟩], [], false⟩).2 =
      Except.error "Only failed notifications can be retried" := by
  have h : ∀ n, getNotification 1
      ((⟨[⟨1, "a@b.com", "hi", "email", "normal", "", Status.pending, 0, none,
          none, 0, 0, none, none⟩], [], false⟩ : ServiceState)).store = some n →
      n.status ≠ Status.failed := by
    intro n hn
    have h2 : some (⟨1, "a@b.com", "hi", "email", "normal", "", Status.pending, 0,
        none, none, 0, 0, none, none⟩ : Record) = some n := hn
    obtain rfl := Option.some.inj h2
    decide
  exact ⟨(retryFailedNotification_rejects_without_mutation 9 1 _ h).1,
    (retryFailedNotification_rejects_without_mutation 9 1 _ h).2.2 _ rfl⟩

/-- C5: a tick with a batch already in flight (or an empty queue) is a
no-op that removes and dispatches nothing; otherwise the tick removes
exactly the first min(batchSize, queue length) entries off the head of the
pending queue in FIFO order, leaving the rest in order. -/
theorem tick_spec (now bs : Nat) (provs : String → Option ProviderFun)
    (s : ServiceState) :
    (s.processing = true → NotificationService.tick now bs provs s = (s, [])) ∧
    (s.queue = [] → NotificationService.tick now bs provs s = (s, [])) ∧
    (s.processing = false → s.queue ≠ [] →
      (NotificationService.tick now bs provs s).2 = s.queue.take bs ∧
      (NotificationService.tick now bs provs s).1.queue = s.queue.drop bs ∧
      (NotificationService.tick now bs provs s).2.length = min bs s.queue.length ∧
      (NotificationService.tick now bs provs s).2 ++
        (NotificationService.tick now bs provs s).1.queue = s.queue) := by
  refine ⟨fun hp => ?_, fun hq => ?_, fun hp hq => ?_⟩
  · simp [NotificationService.tick, hp]
  · simp [NotificationService.tick, hq]
  · have he : s.queue.isEmpty = false := by
      cases hqq : s.queue with
      | nil => exact absurd hqq hq
      | cons a l => rfl
    refine ⟨?_, ?_, ?_, ?_⟩
    · simp [NotificationService.tick, hp, he]
    · simp [NotificationService.tick, hp, he]
    · simp [NotificationService.tick, hp, he, List.length_take]
    · simp [NotificationService.tick, hp, he, List.take_append_drop]

/-- Witness for C5: a tick with batch size 2 over a three-entry queue
removes exactly the first two entries and leaves the third. -/
theorem tick_spec_witness :
    (NotificationService.tick 7 2 (fun _ => none)
        ⟨[], [⟨1, "", "", "", "", "", Status.pending, 0, none, none, 0, 0, none, none⟩,
              ⟨2, "", "", "", "", "", Status.pending, 0, none, none, 0, 0, none, none⟩,
              ⟨3, "", "", "", "", "", Status.pending, 0, none, none, 0, 0, none, none⟩],
          false⟩).2 =
      [⟨1, "", "", "", "", "", Status.pending, 0, none, none, 0, 0, none, none⟩,
       ⟨2, "", "", "", "", "", Status.pending, 0, none, none, 0, 0, none, none⟩] ∧
    (NotificationService.tick 7 2 (fun _ => none)
        ⟨[], [⟨1, "", "", "", "", "", Status.pending, 0, none, none, 0, 0, none, none⟩,
              ⟨2, "", "", "", "", "", Status.pending, 0, none, none, 0, 0, none, none⟩,
              ⟨3, "", "", "", "", "", Status.pending, 0, none, none, 0, 0, none, none⟩],
          false⟩).1.queue =
      [⟨3, "", "", "", "", "", Status.pending, 0, none, none, 0, 0, none, none⟩] := by
  have h := (tick_spec 7 2 (fun _ => none)
      ⟨[], [⟨1, "", "", "", "", "", Status.pending, 0, none, none, 0, 0, none, none⟩,
            ⟨2, "", "", "", "", "", Status.pending, 0, none, none, 0, 0, none, none⟩,
            ⟨3, "", "", "", "", "", Status.pending, 0, none, none, 0, 0, none, none⟩],
        false⟩).2.2 rfl (by simp)
  exact ⟨h.1, h.2.1⟩

/-- C6: none of the four providers lets an internal failure escape as an
exception: each `send` is total (modelled by returning a plain result for
every transport outcome, including a raising transport), and whenever the
result has success=false its `error` field carries the failure text. -/
theorem provider_send_never_raises (now : Nat) (n : Record)
    (te : Except String EmailInfo) (ts : Except String SmsInfo)
    (tp : Except String PushInfo) (tw : Except String WebhookInfo) :
    ((EmailProvider.send now n te).success = true ∨
      ((EmailProvider.send now n te).success = false ∧
        (EmailProvider.send now n te).error.isSome = true)) ∧
    ((SMSProvider.send now n ts).success = true ∨
      ((SMSProvider.send now n ts).success = false ∧
        (SMSProvider.send now n ts).error.isSome = true)) ∧
    ((PushProvider.send n tp).success = true ∨
      ((PushProvider.send n tp).success = false ∧
        (PushProvider.send n tp).error.isSome = true)) ∧
    ((WebhookProvider.send now n tw).success = true ∨
      ((WebhookProvider.send now n tw).success = false ∧
        (WebhookProvider.send now n tw).error.isSome = true)) := by
  refine ⟨?_, ?_, ?_, ?_⟩
  · cases te <;> simp [EmailProvider.send, emailSendBody]
  · cases hv : isValidPhoneNumber n.recipient with
    | true => cases ts <;> simp [SMSProvider.send, smsSendBody, hv]
    | false => simp [SMSProvider.send, smsSendBody, hv]
  · cases tp <;> simp [PushProvider.send, pushSendBody]
  · cases tw <;> simp [WebhookProvider.send, webhookSendBody]

/-- Counterexample for C1: a batch dispatch whose provider returns a
result with success=false leaves the persisted record at status failed
with `error` unset, `failedAt` unset and `sentAt` set — the opposite of the
claimed outcome (`error` populated, `failedAt` set, `sentAt` unset). -/
theorem success_false_writeback_counterexample :
    (getNotification 1
        (NotificationService.tick 5 100
          (fun _ => some (fun _ =>
            SendOutcome.ok ⟨false, none, some "always fails", "email", some 5⟩))
          ⟨[⟨1, "a@b.com", "hi", "email", "normal", "", Status.pending, 0, none,
             none, 0, 0, none, none⟩],
           [⟨1, "a@b.com", "hi", "email", "normal", "", Status.pending, 0, none,
             none, 0, 0, none, none⟩],
           false⟩).1.store).map
      (fun r => (r.status, r.error, r.failedAt, r.sentAt)) =
      some (Status.failed, none, none, some 5) := rfl

/-- C1 (amended): when the bound provider returns a result with
success=false, the write-back sets status failed together with
`providerResponse` (carrying the provider's own error payload) and
`sentAt`; the record's `error` and `failedAt` columns are not written (they
keep their prior values, unset for a first dispatch), and the result is
returned, not thrown. -/
theorem processNotification_provider_reported_failure (now : Nat)
    (provs : String → Option ProviderFun) (n : Record) (store : List Record)
    (p : ProviderFun) (res : DeliveryResult) (x : Record)
    (hp : provs n.ntype = some p) (hres : p n = SendOutcome.ok res)
    (hsucc : res.success = false) (hx : getNotification n.id store = some x) :
    (NotificationService.processNotification now provs n store).2 = Except.ok res ∧
    getNotification n.id (NotificationService.processNotification now provs n store).1 =
      some { x with
        status := Status.failed, providerResponse := some res,
        sentAt := some now, updatedAt := now } := by
  constructor
  · simp [NotificationService.processNotification, hp, hres, hsucc]
  · simp only [NotificationService.processNotification, hp, hres, hsucc,
      if_false, Bool.false_eq_true]
    rw [getNotification_updateNotification, getNotification_updateNotification, hx,
      Option.map_some', Option.map_some', applyPatch_outcome_processing]

/-- Witness for C1 (amended) at a concrete record and always-failing
provider. -/
theorem processNotification_provider_reported_failure_witness :
    (NotificationService.processNotification 5
        (fun _ => some (fun _ =>
          SendOutcome.ok ⟨false, none, some "always fails", "email", some 5⟩))
        ⟨1, "a@b.com", "hi", "email", "normal", "", Status.pending, 0, none,
         none, 0, 0, none, none⟩
        [⟨1, "a@b.com", "hi", "email", "normal", "", Status.pending, 0, none,
          none, 0, 0, none, none⟩]).2 =
      Except.ok ⟨false, none, some "always fails", "email", some 5⟩ ∧
    getNotification 1
        (NotificationService.processNotification 5
          (fun _ => some (fun _ =>
            SendOutcome.ok ⟨false, none, some "always fails", "email", some 5⟩))
          ⟨1, "a@b.com", "hi", "email", "normal", "", Status.pending, 0, none,
           none, 0, 0, none, none⟩
          [⟨1, "a@b.com", "hi", "email", "normal", "", Status.pending, 0, none,
            none, 0, 0, none, none⟩]).1 =
      some ⟨1, "a@b.com", "hi", "email", "normal", "", Status.failed, 0,
        some ⟨false, none, some "always fails", "email", some 5⟩, none, 0, 5,
        some 5, none⟩ := by
  have h := processNotification_provider_reported_failure 5
    (fun _ => some (fun _ =>
      SendOutcome.ok ⟨false, none, some "always fails", "email", some 5⟩))
    ⟨1, "a@b.com", "hi", "email", "normal", "", Status.pending, 0, none,
     none, 0, 0, none, none⟩
    [⟨1, "a@b.com", "hi", "email", "normal", "", Status.pending, 0, none,
      none, 0, 0, none, none⟩]
    (fun _ => SendOutcome.ok ⟨false, none, some "always fails", "email", some 5⟩)
    ⟨false, none, some "always fails", "email", some 5⟩
    ⟨1, "a@b.com", "hi", "email", "normal", "", Status.pending, 0, none,
     none, 0, 0, none, none⟩
    rfl rfl rfl rfl
  exact ⟨h.1, h.2⟩

/-- Counterexample for C2: retrying a concrete failed record increments the
persisted retryCount and resets the persisted status, but the persisted
`error` and `failedAt` columns are NOT cleared, contradicting the claim
that the retry clears them in the persisted record. -/
theorem retry_persisted_failure_fields_counterexample :
    (getNotification 1
        (NotificationService.retryFailedNotification 10 1
          ⟨[⟨1, "a@b.com", "hi", "email", "normal", "", Status.failed, 0, none,
             some "boom", 1, 3, none, some 3⟩], [], false⟩).1.store).map
      (fun r => (r.status, r.retryCount, r.error, r.failedAt)) =
      some (Status.pending, 1, some "boom", some 3) := rfl

/-- C2 (amended): retrying a failed record returns the incremented
retryCount, persists status pending and the incremented retryCount (the
persisted `error`/`failedAt` columns are left as they were — only the
in-memory copy has them deleted), and re-enqueues that cleared in-memory
copy at the tail of the pending queue. -/
theorem retryFailedNotification_spec (now id : Nat) (s : ServiceState) (n : Record)
    (hx : getNotification id s.store = some n) (hst : n.status = Status.failed) :
    (NotificationService.retryFailedNotification now id s).2 =
      Except.ok ⟨true, "Notification queued for retry", n.retryCount + 1⟩ ∧
    getNotification id (NotificationService.retryFailedNotification now id s).1.store =
      some { n with
        status := Status.pending, retryCount := n.retryCount + 1,
        updatedAt := now } ∧
    (NotificationService.retryFailedNotification now id s).1.queue =
      s.queue ++ [{ n with
        status := Status.pending, retryCount := n.retryCount + 1,
        error := none, failedAt := none }] := by
  have hne : ¬ (n.status ≠ Status.failed) := by simp [hst]
  refine ⟨?_, ?_, ?_⟩
  · simp [NotificationService.retryFailedNotification, hx, hne]
  · simp only [NotificationService.retryFailedNotification, hx, hne, if_false,
      ite_not, if_true]
    rw [getNotification_updateNotification, hx, Option.map_some', applyPatch_retry]
  · simp [NotificationService.retryFailedNotification, hx, hne]

/-- Witness for C2 (amended) at a concrete failed record. -/
theorem retryFailedNotification_spec_witness :
    (NotificationService.retryFailedNotification 10 1
        ⟨[⟨1, "a@b.com", "hi", "email", "normal", "", Status.failed, 0, none,
           some "boom", 1, 3, none, some 3⟩], [], false⟩).2 =
      Except.ok ⟨true, "Notification queued for retry", 1⟩ ∧
    (NotificationService.retryFailedNotification 10 1
        ⟨[⟨1, "a@b.com", "hi", "email", "normal", "", Status.failed, 0, none,
           some "boom", 1, 3, none, some 3⟩], [], false⟩).1.queue =
      [⟨1, "a@b.com", "hi", "email", "normal", "", Status.pending, 1, none,
        none, 1, 3, none, none⟩] := by
  have h := retryFailedNotification_spec 10 1
    ⟨[⟨1, "a@b.com", "hi", "email", "normal", "", Status.failed, 0, none,
       some "boom", 1, 3, none, some 3⟩], [], false⟩
    ⟨1, "a@b.com", "hi", "email", "normal", "", Status.failed, 0, none,
     some "boom", 1, 3, none, some 3⟩
    rfl rfl
  exact ⟨h.1, h.2.2⟩

/-- Counterexample for C3: a record that failed with an exception (so the
store holds `error`/`failedAt`), is retried (the retry patch does not clear
those columns), and is then dispatched successfully, ends in a terminal
state with BOTH timestamps (`sentAt` and `failedAt`) and BOTH outcome
fields (`providerResponse` and `error`) set — refuting the claimed mutual
exclusivity for every reachable record state. -/
theorem terminal_exclusivity_counterexample :
    (getNotification 1
        (NotificationService.tick 4 100
          (fun _ => some (fun _ =>
            SendOutcome.ok ⟨true, some "mid", none, "email", some 4⟩))
          (NotificationService.retryFailedNotification 3 1
            ⟨[⟨1, "a@b.com", "hi", "email", "normal", "", Status.failed, 0, none,
               some "SMTP down", 1, 2, none, some 2⟩], [], false⟩).1).1.store).map
      (fun r => (r.status, r.sentAt, r.failedAt, r.providerResponse, r.error)) =
      some (Status.sent, some 4, some 2,
        some ⟨true, some "mid", none, "email", some 4⟩, some "SMTP down") := rfl

/-- C3 (amended): for a first dispatch — a record whose outcome fields
(`error`, `failedAt`, `providerResponse`, `sentAt`) are all still unset —
one dispatch write-back does leave the record in a terminal status with
exactly one of `sentAt`/`failedAt` set and at most one of
`providerResponse`/`error` set. The unrestricted claim fails because the
retry patch does not clear the persisted `error`/`failedAt`, so a record
retried after an exception failure and re-dispatched accumulates both
timestamps and both outcome fields. -/
theorem processNotification_first_dispatch_exclusive (now : Nat)
    (provs : String → Option ProviderFun) (n : Record) (store : List Record)
    (x : Record) (hx : getNotification n.id store = some x)
    (he : x.error = none) (hf : x.failedAt = none)
    (hpr : x.providerResponse = none) (hs : x.sentAt = none) :
    ∃ y, getNotification n.id
        (NotificationService.processNotification now provs n store).1 = some y ∧
      (y.status = Status.sent ∨ y.status = Status.failed) ∧
      y.sentAt.isSome = !y.failedAt.isSome ∧
      (y.providerResponse.isSome && y.error.isSome) = false := by
  cases hp : provs n.ntype with
  | none =>
      refine ⟨{ x with
        status := Status.failed, error := some (noProviderMsg n.ntype),
        failedAt := some now, updatedAt := now }, ?_, Or.inr rfl, ?_, ?_⟩
      · simp only [NotificationService.processNotification, hp]
        rw [getNotification_updateNotification, getNotification_updateNotification,
          hx, Option.map_some', Option.map_some', applyPatch_failure_processing]
      · simp [hs]
      · simp [hpr]
  | some p =>
      cases hq : p n with
      | threw e =>
          refine ⟨{ x with
            status := Status.failed, error := some e,
            failedAt := some now, updatedAt := now }, ?_, Or.inr rfl, ?_, ?_⟩
          · simp only [NotificationService.processNotification, hp, hq]
            rw [getNotification_updateNotification, getNotification_updateNotification,
              hx, Option.map_some', Option.map_some', applyPatch_failure_processing]
          · simp [hs]
          · simp [hpr]
      | ok res =>
          refine ⟨{ x with
            status := if res.success then Status.sent else Status.failed,
            providerResponse := some res, sentAt := some now, updatedAt := now },
            ?_, ?_, ?_, ?_⟩
          · simp only [NotificationService.processNotification, hp, hq]
            rw [getNotification_updateNotification, getNotification_updateNotification,
              hx, Option.map_some', Option.map_some', applyPatch_outcome_processing]
          · cases res.success
            · exact Or.inr rfl
            · exact Or.inl rfl
          · simp [hf]
          · simp [he]

/-- Witness for C3 (amended): a fresh record dispatched once through a
succeeding provider ends with only `sentAt` and only `providerResponse`
set. -/
theorem processNotification_first_dispatch_exclusive_witness :
    getNotification 1
        (NotificationService.processNotification 5
          (fun _ => some (fun _ =>
            SendOutcome.ok ⟨true, some "mid", none, "email", some 5⟩))
          ⟨1, "a@b.com", "hi", "email", "normal", "", Status.pending, 0, none,
           none, 0, 0, none, none⟩
          [⟨1, "a@b.com", "hi", "email", "normal", "", Status.pending, 0, none,
            none, 0, 0, none, none⟩]).1 =
      some ⟨1, "a@b.com", "hi", "email", "normal", "", Status.sent, 0,
        some ⟨true, some "mid", none, "email", some 5⟩, none, 0, 5, some 5, none⟩ ∧
    ((⟨1, "a@b.com", "hi", "email", "normal", "", Status.sent, 0,
        some ⟨true, some "mid", none, "email", some 5⟩, none, 0, 5, some 5,
        none⟩ : Record).sentAt.isSome =
      !(⟨1, "a@b.com", "hi", "email", "normal", "", Status.sent, 0,
        some ⟨true, some "mid", none, "email", some 5⟩, none, 0, 5, some 5,
        none⟩ : Record).failedAt.isSome) := by
  obtain ⟨y, h1, h2, h3, h4⟩ := processNotification_first_dispatch_exclusive 5
    (fun _ => some (fun _ =>
      SendOutcome.ok ⟨true, some "mid", none, "email", some 5⟩))
    ⟨1, "a@b.com", "hi", "email", "normal", "", Status.pending, 0, none,
     none, 0, 0, none, none⟩
    [⟨1, "a@b.com", "hi", "email", "normal", "", Status.pending, 0, none,
      none, 0, 0, none, none⟩]
    ⟨1, "a@b.com", "hi", "email", "normal", "", Status.pending, 0, none,
     none, 0, 0, none, none⟩
    rfl rfl rfl rfl rfl
  have hy : some (⟨1, "a@b.com", "hi", "email", "normal", "", Status.sent, 0,
      some ⟨true, some "mid", none, "email", some 5⟩, none, 0, 5, some 5,
      none⟩ : Record) = some y := h1
  obtain rfl := Option.some.inj hy
  exact ⟨h1, h3⟩

/-- C7: submitting a notification whose type has no bound provider still
persists and enqueues it (submission succeeds and never consults the
registry); the failure surfaces only at dispatch: the processor marks the
record failed with the no-provider message in `error` (and `failedAt`),
the error is absorbed by the batch tick (which returns a plain state), and
the record is not re-enqueued by the tick. -/
theorem unregistered_type_dispatch_failure (now now2 bs : Nat) (n : Record)
    (s : ServiceState) (provs : String → Option ProviderFun)
    (hfresh : s.store.any (fun r => r.id == n.id) = false)
    (hnone : provs n.ntype = none) :
    (NotificationService.sendNotification now n s).2 =
      Except.ok ⟨"queued", n.id, now⟩ ∧
    (NotificationService.sendNotification now n s).1.store =
      s.store ++ [toRow now n] ∧
    (NotificationService.sendNotification now n s).1.queue = s.queue ++ [n] ∧
    (NotificationService.processNotification now2 provs n
        (s.store ++ [toRow now n])).2 = Except.error (noProviderMsg n.ntype) ∧
    getNotification n.id (NotificationService.processNotification now2 provs n
        (s.store ++ [toRow now n])).1 =
      some { toRow now n with
        status := Status.failed, error := some (noProviderMsg n.ntype),
        failedAt := some now2, updatedAt := now2 } ∧
    (NotificationService.tick now2 bs provs
        ⟨s.store ++ [toRow now n], s.queue ++ [n], false⟩).1.queue =
      (s.queue ++ [n]).drop bs := by
  have hq : ((s.queue ++ [n] : List Record)).isEmpty = false := by
    cases s.queue <;> rfl
  refine ⟨?_, ?_, ?_, ?_, ?_, ?_⟩
  · simp [NotificationService.sendNotification, saveNotification, hfresh]
  · simp [NotificationService.sendNotification, saveNotification, hfresh]
  · simp [NotificationService.sendNotification, saveNotification, hfresh]
  · simp [NotificationService.processNotification, hnone]
  · simp only [NotificationService.processNotification, hnone]
    rw [getNotification_updateNotification, getNotification_updateNotification,
      show getNotification n.id (s.store ++ [toRow now n]) = some (toRow now n) from
        getNotification_append_self s.store (toRow now n) hfresh,
      Option.map_some', Option.map_some', applyPatch_failure_processing]
  · simp [NotificationService.tick, hq]

/-- Witness for C7: a concrete notification of the unregistered type
"fax", against the registry with all four channels enabled. -/
theorem unregistered_type_dispatch_failure_witness :
    (NotificationService.sendNotification 6
        ⟨1, "555", "hi", "fax", "normal", "", Status.pending, 0, none, none,
         6, 6, none, none⟩ ⟨[], [], false⟩).2 =
      Except.ok ⟨"queued", 1, 6⟩ ∧
    getNotification 1 (NotificationService.processNotification 7
        (mkProviders ⟨true, true, true, true⟩
          (fun _ => SendOutcome.ok ⟨true, none, none, "email", none⟩)
          (fun _ => SendOutcome.ok ⟨true, none, none, "sms", none⟩)
          (fun _ => SendOutcome.ok ⟨true, none, none, "push", none⟩)
          (fun _ => SendOutcome.ok ⟨true, none, none, "webhook", none⟩))
        ⟨1, "555", "hi", "fax", "normal", "", Status.pending, 0, none, none,
         6, 6, none, none⟩
        ([] ++ [toRow 6 ⟨1, "555", "hi", "fax", "normal", "", Status.pending, 0,
          none, none, 6, 6, none, none⟩])).1 =
      some ⟨1, "555", "hi", "fax", "normal", "", Status.failed, 0, none,
        some "No provider found for notification type: fax", 6, 7, none,
        some 7⟩ := by
  have h := unregistered_type_dispatch_failure 6 7 100
    ⟨1, "555", "hi", "fax", "normal", "", Status.pending, 0, none, none,
     6, 6, none, none⟩
    ⟨[], [], false⟩
    (mkProviders ⟨true, true, true, true⟩
      (fun _ => SendOutcome.ok ⟨true, none, none, "email", none⟩)
      (fun _ => SendOutcome.ok ⟨true, none, none, "sms", none⟩)
      (fun _ => SendOutcome.ok ⟨true, none, none, "push", none⟩)
      (fun _ => SendOutcome.ok ⟨true, none, none, "webhook", none⟩))
    rfl rfl
  exact ⟨h.1, h.2.2.2.2.1⟩

theorem sendBulk_length (now : Nat) :
    ∀ (reqs : List Request) (k : Nat) (s : ServiceState),
      (NotificationService.sendBulkNotifications now reqs k s).1.length =
        reqs.length := by
  intro reqs
  induction reqs with
  | nil => intro k s; rfl
  | cons req rest ih =>
      intro k s
      simp only [NotificationService.sendBulkNotifications]
      split
      · simp [ih]
      · simp [ih]

/-- C8: bulk submission returns exactly one result entry per input request
in input order (head entry first, then the entries of the remaining
requests); a request whose id already exists in the store yields an error
entry for that item while the remaining requests are still submitted
against the unchanged state and counter. -/
theorem sendBulkNotifications_spec (now : Nat) (reqs : List Request) (k : Nat)
    (s : ServiceState) :
    (NotificationService.sendBulkNotifications now reqs k s).1.length =
      reqs.length ∧
    (∀ req rest, ∃ e k2 s2,
      (NotificationService.sendBulkNotifications now (req :: rest) k s).1 =
        e :: (NotificationService.sendBulkNotifications now rest k2 s2).1) ∧
    (∀ req rest i, req.id = some i →
      s.store.any (fun r => r.id == i) = true →
      (NotificationService.sendBulkNotifications now (req :: rest) k s).1 =
        ⟨some i, "error", some "UNIQUE constraint failed: notifications.id"⟩ ::
          (NotificationService.sendBulkNotifications now rest k s).1) := by
  refine ⟨sendBulk_length now reqs k s, fun req rest => ?_,
    fun req rest i hid hdup => ?_⟩
  · cases hid : req.id with
    | some i =>
        cases hdup : s.store.any (fun r => r.id == i) with
        | true =>
            refine ⟨⟨some i, "error",
              some "UNIQUE constraint failed: notifications.id"⟩, k, s, ?_⟩
            simp [NotificationService.sendBulkNotifications,
              NotificationService.sendNotification, saveNotification,
              mkNotification, hid, hdup]
        | false =>
            refine ⟨⟨some i, "queued", none⟩, k,
              { s with
                store := s.store ++ [toRow now (mkNotification i now req)],
                queue := s.queue ++ [mkNotification i now req] }, ?_⟩
            simp [NotificationService.sendBulkNotifications,
              NotificationService.sendNotification, saveNotification,
              mkNotification, hid, hdup]
    | none =>
        cases hdup : s.store.any (fun r => r.id == k) with
        | true =>
            refine ⟨⟨none, "error",
              some "UNIQUE constraint failed: notifications.id"⟩, k + 1, s, ?_⟩
            simp [NotificationService.sendBulkNotifications,
              NotificationService.sendNotification, saveNotification,
              mkNotification, hid, hdup]
        | false =>
            refine ⟨⟨some k, "queued", none⟩, k + 1,
              { s with
                store := s.store ++ [toRow now (mkNotification k now req)],
                queue := s.queue ++ [mkNotification k now req] }, ?_⟩
            simp [NotificationService.sendBulkNotifications,
              NotificationService.sendNotification, saveNotification,
              mkNotification, hid, hdup]
  · simp [NotificationService.sendBulkNotifications,
      NotificationService.sendNotification, saveNotification,
      mkNotification, hid, hdup]

/-- Witness for C8: a bulk submission whose single request reuses an id
already present in the store yields exactly its per-item error entry. -/
theorem sendBulkNotifications_spec_witness :
    (NotificationService.sendBulkNotifications 5
        [⟨some 1, "x", "m", "email", "normal", ""⟩] 10
        ⟨[⟨1, "", "", "", "", "", Status.pending, 0, none, none, 0, 0, none,
           none⟩], [], false⟩).1 =
      [⟨some 1, "error", some "UNIQUE constraint failed: notifications.id"⟩] := by
  exact (sendBulkNotifications_spec 5 [] 10
      ⟨[⟨1, "", "", "", "", "", Status.pending, 0, none, none, 0, 0, none,
         none⟩], [], false⟩).2.2
    ⟨some 1, "x", "m", "email", "normal", ""⟩ [] 1 rfl rfl

theorem deleteOld_length_partition (c : Nat) (l : List Record) :
    (l.filter (fun r => !(decide (r.createdAt < c)))).length +
      (l.filter (fun r => decide (r.createdAt < c))).length = l.length := by
  induction l with
  | nil => rfl
  | cons x xs ih =>
      cases h : decide (x.createdAt < c) <;> simp [List.filter_cons, h] <;> omega

/-- C9: the retention purge keeps exactly the records whose creation time
does not precede the cutoff now − age (every kept record is an untouched
member of the original store, in order), the count it returns accounts for
every removed record, and running it a second time at the same instant
with the same age removes nothing. -/
theorem deleteOldNotifications_spec (now days : Nat) (store : List Record) :
    (∀ r, r ∈ (deleteOldNotifications now days store).1 ↔
      (r ∈ store ∧ ¬ (r.createdAt < now - days * 86400))) ∧
    (deleteOldNotifications now days store).1.length +
      (deleteOldNotifications now days store).2 = store.length ∧
    List.Sublist (deleteOldNotifications now days store).1 store ∧
    deleteOldNotifications now days (deleteOldNotifications now days store).1 =
      ((deleteOldNotifications now days store).1, 0) := by
  refine ⟨fun r => ?_, ?_, ?_, ?_⟩
  · simp [deleteOldNotifications, List.mem_filter]
  · simp only [deleteOldNotifications]
    exact deleteOld_length_partition (now - days * 86400) store
  · simp only [deleteOldNotifications]
    exact List.filter_sublist store
  · simp [deleteOldNotifications, List.filter_filter, Bool.and_not_self,
      Bool.and_self, List.filter_false, Prod.mk.injEq]

theorem insertByCreatedAtDesc_length (r : Record) (l : List Record) :
    (insertByCreatedAtDesc r l).length = l.length + 1 := by
  induction l with
  | nil => rfl
  | cons x xs ih =>
      by_cases h : r.createdAt ≤ x.createdAt <;>
        simp [insertByCreatedAtDesc, h, ih]

theorem orderByCreatedAtDesc_length (l : List Record) :
    (orderByCreatedAtDesc l).length = l.length := by
  induction l with
  | nil => rfl
  | cons x xs ih => simp [orderByCreatedAtDesc, insertByCreatedAtDesc_length, ih]

/-- C10: the `total` field of a history/list query result equals the
length of the returned page (the rows left after the offset/limit window),
hence never exceeds the limit, and equals min(limit, matching − offset)
rather than the full count of records matching the filter; the service's
history call is a read-through to the store query. -/
theorem getNotifications_total_is_page_length (o : ListOptions)
    (store : List Record) :
    (getNotifications o store).total =
      (getNotifications o store).notifications.length ∧
    (getNotifications o store).total ≤ o.limit ∧
    (getNotifications o store).total =
      min o.limit ((store.filter (matchesFilter o)).length - o.offset) ∧
    NotificationService.getNotificationHistory o ⟨store, [], false⟩ =
      getNotifications o store := by
  refine ⟨rfl, ?_, ?_, rfl⟩
  · show (((orderByCreatedAtDesc (store.filter (matchesFilter o))).drop
        o.offset).take o.limit).length ≤ o.limit
    rw [List.length_take]
    exact min_le_left _ _
  · show (((orderByCreatedAtDesc (store.filter (matchesFilter o))).drop
        o.offset).take o.limit).length =
      min o.limit ((store.filter (matchesFilter o)).length - o.offset)
    rw [List.length_take, List.length_drop, orderByCreatedAtDesc_length]
